import Mathlib

/-!
# orb_slam_3_ros: the monocular node, the system builders and the verbosity filter

A shallow embedding of

* `orb_slam3_lib/include/System.h` (`Verbose`, `System::eSensor`, the builder
  classes and the tracking entry points),
* `orb_slam3_ros/src/ros_node_mono.cc` (`main`, `MonoNode`),
* `orb_slam3_ros/src/ROSSystemBuilder.cpp` and its header (the constructor is
  embedded from the definition in the .cpp file, whose second parameter is the
  settings file name).

The member functions of `System` that System.h declares and System.cc defines
are modelled from the spec in the part on the orchestrator's control plane.

Conventions.  A `double` is carried around as its 64-bit pattern and is never
computed with.  A raw pointer is `Option Addr` (`none` is the null pointer).  An
object whose member functions are defined in another translation unit is
represented by the list of calls it has received.  Exceptions are the `error`
side of `Except`, tagged with their class where a handler selects by class.
-/

/-- A `double`, represented by its bit pattern. -/
structure Double where
  bits : Nat
  deriving DecidableEq, Repr

/-- A machine address. -/
abbrev Addr := Nat

/-- A raw pointer; `none` is `nullptr`. -/
abbrev Ptr := Option Addr

namespace ros

/-- The type `ros::Time`: seconds and nanoseconds. -/
structure Time where
  sec : Nat
  nsec : Nat
  deriving DecidableEq, Repr

/-- The type `ros::NodeHandle`, identified by its namespace. -/
structure NodeHandle where
  ns : String
  deriving DecidableEq, Repr

/-- Severity of a console message. -/
inductive Level where
  | WARN
  | ERROR
  deriving DecidableEq, Repr

/-- One line written through `ROS_WARN` / `ROS_ERROR`. -/
structure LogLine where
  level : Level
  text : String
  deriving DecidableEq, Repr

end ros

namespace std_msgs

/-- The message header `std_msgs::Header`. -/
structure Header where
  seq : Nat
  stamp : ros.Time
  frame_id : String
  deriving DecidableEq, Repr

end std_msgs

namespace cv

/-- The matrix type `cv::Mat`, reduced to its shape and its bytes. -/
structure Mat where
  rows : Nat
  cols : Nat
  data : List Nat
  deriving DecidableEq, Repr

end cv

namespace sensor_msgs

/-- The message type `sensor_msgs::Image`. -/
structure Image where
  header : std_msgs.Header
  height : Nat
  width : Nat
  encoding : String
  is_bigendian : Nat
  step : Nat
  data : List Nat
  deriving DecidableEq, Repr

end sensor_msgs

namespace cv_bridge

/-- The class `cv_bridge::Exception`, the exception type of the conversion functions. -/
structure Exception where
  what : String
  deriving DecidableEq, Repr

/-- The class `cv_bridge::CvImage`. -/
structure CvImage where
  header : std_msgs.Header
  encoding : String
  image : cv.Mat
  deriving DecidableEq, Repr

/-- An exception in flight, by its class: a `cv_bridge::Exception`, the class
the handler in `ImageCallback` names, or an object of any other class (a
`std::runtime_error`, a `std::bad_alloc`, ...), of which the message is kept. -/
inductive Thrown where
  | cv_bridge_Exception (e : Exception)
  | other (what : String)
  deriving DecidableEq, Repr

/-- The type of `cv_bridge::toCvShare(msg)`: a converted image, or a thrown
exception of whatever class.  The function itself belongs to the cv_bridge
library and is a parameter of everything below. -/
abbrev Conversion := sensor_msgs.Image → Except Thrown CvImage

end cv_bridge

namespace ORB_SLAM3

namespace IMU

/-- The class `IMU::Point`: one inertial measurement (acceleration, angular velocity,
time). -/
structure Point where
  a : List Double
  w : List Double
  t : Double
  deriving DecidableEq, Repr

end IMU

namespace Verbose

/-- The enumeration `Verbose::eLevel`. -/
inductive eLevel where
  | VERBOSITY_QUIET
  | VERBOSITY_NORMAL
  | VERBOSITY_VERBOSE
  | VERBOSITY_VERY_VERBOSE
  | VERBOSITY_DEBUG
  deriving DecidableEq, Repr

/-- The enumerator values written in the declaration of `eLevel`. -/
def eLevel.val : eLevel → Nat
  | .VERBOSITY_QUIET => 0
  | .VERBOSITY_NORMAL => 1
  | .VERBOSITY_VERBOSE => 2
  | .VERBOSITY_VERY_VERBOSE => 3
  | .VERBOSITY_DEBUG => 4

/-- The state `Verbose` acts on: the static member `th` and the characters
written to `cout` so far. -/
structure State where
  th : eLevel
  cout : String
  deriving DecidableEq, Repr

/-- What `endl` inserts. -/
def endl : String := "\n"

/-- The function `Verbose::PrintMess`: `if(lev <= th) cout << str << endl;`. -/
def PrintMess (str : String) (lev : eLevel) (s : State) : State :=
  if lev.val ≤ s.th.val then { s with cout := s.cout ++ str ++ endl } else s

/-- The function `Verbose::SetTh`: `th = _th;`. -/
def SetTh (_th : eLevel) (s : State) : State :=
  { s with th := _th }

end Verbose

namespace System

/-- The enumeration `System::eSensor`. -/
inductive eSensor where
  | MONOCULAR
  | STEREO
  | RGBD
  | IMU_MONOCULAR
  | IMU_STEREO
  deriving DecidableEq, Repr

/-- The enumerator values written in the declaration of `eSensor`. -/
def eSensor.val : eSensor → Nat
  | .MONOCULAR => 0
  | .STEREO => 1
  | .RGBD => 2
  | .IMU_MONOCULAR => 3
  | .IMU_STEREO => 4

/-- A call of one of the three tracking entry points declared in `System`, with
all its arguments (defaults filled in by the caller). -/
inductive Call where
  | TrackStereo (imLeft imRight : cv.Mat) (timestamp : Double)
      (vImuMeas : List IMU.Point) (filename : String)
  | TrackRGBD (im depthmap : cv.Mat) (timestamp : Double) (filename : String)
  | TrackMonocular (im : cv.Mat) (timestamp : Double)
      (vImuMeas : List IMU.Point) (filename : String)
  deriving DecidableEq, Repr

/-- Modelled from the spec: the modality check of the tracking entry points is in
System.cc, which is not among the sources.  The spec (sections 4.1 and 6) makes a
sample valid for exactly the configured modality: a single image for the
monocular sensors, an image pair for the stereo sensors, image plus depth for
RGB-D; inertial samples are optional. -/
def compatible : eSensor → Call → Bool
  | .MONOCULAR, .TrackMonocular _ _ _ _ => true
  | .IMU_MONOCULAR, .TrackMonocular _ _ _ _ => true
  | .STEREO, .TrackStereo _ _ _ _ _ => true
  | .IMU_STEREO, .TrackStereo _ _ _ _ _ => true
  | .RGBD, .TrackRGBD _ _ _ _ => true
  | _, _ => false

end System

end ORB_SLAM3

open ORB_SLAM3

/-- The members of `MonoNode` (its own and those inherited from `Node`) that the
code of ros_node_mono.cc reads or writes.  `orb_slam_` points to the `System`;
the system is represented by the tracking calls it has received. -/
structure MonoNode where
  sensor : System.eSensor
  current_frame_time_ : ros.Time
  orb_slam_ : List System.Call
  image_subscriber : String × Nat
  camera_info_topic_ : String
  rosout : List ros.LogLine
  deriving DecidableEq, Repr

namespace MonoNode

/-- The constructor `MonoNode::MonoNode`.  `imageTopicParam` is the value of
`/orb_slam3_ros/topic/image_topic` on the parameter server, if set.  The second
`param` call is the two-argument overload, which returns the value and leaves
`camera_info` untouched, so `camera_info_topic_` is the empty string. -/
def ctor (sensor : System.eSensor) (DEFAULT_IMAGE_TOPIC : String)
    (imageTopicParam : Option String) (rosout : List ros.LogLine) : MonoNode :=
  let image_topic := imageTopicParam.getD DEFAULT_IMAGE_TOPIC
  let camera_info := ""
  { sensor := sensor
    current_frame_time_ := ⟨0, 0⟩
    orb_slam_ := []
    image_subscriber := (image_topic, 1)
    camera_info_topic_ := camera_info
    rosout := rosout }

/-- The callback `MonoNode::ImageCallback`.  The result is `ok` when the callback
returns and `error` when an exception leaves it: the one handler of the `try`
block is `catch (cv_bridge::Exception& e)`, so an exception of another class
thrown by the conversion is not caught. -/
def ImageCallback (toCvShare : cv_bridge.Conversion) (toSec : ros.Time → Double)
    (self : MonoNode) (msg : sensor_msgs.Image) : Except cv_bridge.Thrown MonoNode :=
  match toCvShare msg with
  | .error (.cv_bridge_Exception e) =>
    .ok { self with rosout := self.rosout ++ [⟨.ERROR, "cv_bridge exception: " ++ e.what⟩] }
  | .error (.other what) => .error (.other what)
  | .ok cv_in_ptr =>
    let self := { self with current_frame_time_ := msg.header.stamp }
    .ok { self with
      orb_slam_ := self.orb_slam_ ++
        [.TrackMonocular cv_in_ptr.image (toSec cv_in_ptr.header.stamp) [] ""] }

/-- How serving the messages ended: the node as it then was, and the exception
that left a callback and ended the program, if there was one. -/
structure Served where
  node : MonoNode
  escaped : Option cv_bridge.Thrown
  deriving DecidableEq, Repr

/-- The loop `ros::spin()` as far as this node goes: the callback runs once per
received message, in order; an exception leaving a callback is caught nowhere
and ends the loop with the node as the callback found it. -/
def spin (toCvShare : cv_bridge.Conversion) (toSec : ros.Time → Double) :
    MonoNode → List sensor_msgs.Image → Served
  | node, [] => { node := node, escaped := none }
  | node, msg :: rest =>
    match ImageCallback toCvShare toSec node msg with
    | .error e => { node := node, escaped := some e }
    | .ok node1 => spin toCvShare toSec node1 rest

/-- The function `main`: warn about command-line arguments, construct the node for
`System::MONOCULAR`, and serve the messages that arrive.  `Node::Init`,
`Node::Start` and `Node::Shutdown` are defined in Node.cc; the `System` that
`orb_slam_` comes to point to starts with no call received. -/
def main (argc : Nat) (DEFAULT_IMAGE_TOPIC : String) (imageTopicParam : Option String)
    (toCvShare : cv_bridge.Conversion) (toSec : ros.Time → Double)
    (msgs : List sensor_msgs.Image) : Served :=
  let rosout : List ros.LogLine :=
    if argc > 1 then [⟨.WARN, "Arguments supplied via command line are neglected."⟩] else []
  let node := ctor .MONOCULAR DEFAULT_IMAGE_TOPIC imageTopicParam rosout
  spin toCvShare toSec node msgs

end MonoNode

/-! ## The builders -/

namespace ORB_SLAM3

namespace Tracking

/-- The two registration calls the ROS builder makes on the tracker.  Their
bodies are in Tracking.cc; the tracker is represented by the calls received. -/
inductive Call where
  | SetFrameSubscriber (pSubscriber : Ptr)
  | SetMapPublisher (pMapPublisher : Ptr)
  deriving DecidableEq, Repr

end Tracking

/-- A `Tracking` object: the registration calls it has received, oldest first. -/
structure Tracking where
  received : List Tracking.Call
  deriving DecidableEq, Repr

namespace Tracking

/-- The effect of `SetFrameSubscriber(p)` on the tracker. -/
def SetFrameSubscriber (t : Tracking) (p : Ptr) : Tracking :=
  { t with received := t.received ++ [.SetFrameSubscriber p] }

/-- The effect of `SetMapPublisher(p)` on the tracker. -/
def SetMapPublisher (t : Tracking) (p : Ptr) : Tracking :=
  { t with received := t.received ++ [.SetMapPublisher p] }

/-- The frame subscriber in force: the argument of the latest
`SetFrameSubscriber` call, null when there was none. -/
def frameSubscriber (t : Tracking) : Ptr :=
  t.received.foldl (fun cur c => match c with
    | .SetFrameSubscriber p => p
    | .SetMapPublisher _ => cur) none

/-- The map publisher in force: the argument of the latest `SetMapPublisher`
call, null when there was none. -/
def mapPublisher (t : Tracking) : Ptr :=
  t.received.foldl (fun cur c => match c with
    | .SetFrameSubscriber _ => cur
    | .SetMapPublisher p => p) none

end Tracking

/-- The object a non-null `std::unique_ptr` owns, with its address. -/
structure Owned (α : Type) where
  addr : Addr
  obj : α
  deriving DecidableEq, Repr

/-- The type `std::unique_ptr<T>`: null, or an owned object. -/
abbrev unique_ptr (α : Type) := Option (Owned α)

/-- The member function `unique_ptr::get`. -/
def unique_ptr.get {α : Type} (p : unique_ptr α) : Ptr :=
  p.map (fun o => o.addr)

namespace System

/-- The virtual member functions declared in `IBuilder`, in declaration order. -/
inductive Getter where
  | GetSensorType
  | GetVocabulary
  | GetKeyFrameDatabase
  | GetMap
  | GetTracker
  | GetLocalMapper
  | GetLoopCloser
  | GetPublisher
  deriving DecidableEq, Repr

/-- The three builder classes of the sources. -/
inductive BuilderClass where
  | IBuilder
  | GenericBuilder
  | ROSSystemBuilder
  deriving DecidableEq, Repr

/-- What a class body declares: its base class, the getters it declares pure
virtual (`= 0`) and the getters it declares with `override`. -/
structure ClassDecl where
  base : Option BuilderClass
  pureVirtual : List Getter
  overrides : List Getter
  deriving DecidableEq, Repr

/-- The class declarations of System.h (`IBuilder`, `GenericBuilder`) and
ROSSystemBuilder.h (`ROSSystemBuilder`). -/
def classDecl : BuilderClass → ClassDecl
  | .IBuilder =>
    { base := none
      pureVirtual := [.GetSensorType, .GetVocabulary, .GetKeyFrameDatabase, .GetMap,
        .GetTracker, .GetLocalMapper, .GetLoopCloser, .GetPublisher]
      overrides := [] }
  | .GenericBuilder =>
    { base := some .IBuilder
      pureVirtual := []
      overrides := [.GetSensorType, .GetVocabulary, .GetKeyFrameDatabase, .GetMap,
        .GetTracker, .GetLocalMapper, .GetLoopCloser] }
  | .ROSSystemBuilder =>
    { base := some .GenericBuilder
      pureVirtual := []
      overrides := [.GetPublisher] }

/-- Search for the final overrider of `g` from class `c` upwards, looking at no
more than `depth` classes. -/
def lookup : Nat → BuilderClass → Getter → Option BuilderClass
  | 0, _, _ => none
  | depth + 1, c, g =>
    if g ∈ (classDecl c).overrides then some c
    else match (classDecl c).base with
      | none => none
      | some b => lookup depth b g

/-- The class whose body of `g` a virtual call on an object of dynamic type `c`
runs; `none` when `g` is still pure virtual in `c`. -/
def finalOverrider (c : BuilderClass) (g : Getter) : Option BuilderClass :=
  lookup 3 c g

/-- What a getter returns: the sensor type, or a pointer. -/
inductive Handle where
  | sensor (s : eSensor)
  | ptr (p : Ptr)
  deriving DecidableEq, Repr

/-- The data members of `GenericBuilder`.  The settings storage is identified by
its file name, the by-value vocabulary by its address; of the objects held
through `unique_ptr` only the tracker is ever touched by the code embedded here,
so the others are reduced to their pointer. -/
structure GenericBuilder where
  mSensor : eSensor
  mSettings : String
  mVocabulary : Addr
  mpKeyFrameDatabase : Ptr
  mpMap : Ptr
  mpTracker : unique_ptr Tracking
  mpLocalMapper : Ptr
  mpLoopCloser : Ptr
  deriving DecidableEq, Repr

/-- The type of the constructor `GenericBuilder(strVocFile, strSettingsFile,
sensor)`.  It is defined in System.cc, so it is a parameter below. -/
abbrev GenericBuilderCtor := String → String → eSensor → GenericBuilder

namespace GenericBuilder

/-- Modelled from the spec: the bodies of the seven getters `GenericBuilder`
overrides are in System.cc, which is not among the sources.  System.h says of
them that they "are all supposed to be simple getters", and the spec (section 6)
that a builder exposes the sensor type and one handle per product; each getter
returns the member of the same name.  `GetPublisher` has no body in this class. -/
def body : Getter → Option (GenericBuilder → Handle)
  | .GetSensorType => some (fun b => .sensor b.mSensor)
  | .GetVocabulary => some (fun b => .ptr (some b.mVocabulary))
  | .GetKeyFrameDatabase => some (fun b => .ptr b.mpKeyFrameDatabase)
  | .GetMap => some (fun b => .ptr b.mpMap)
  | .GetTracker => some (fun b => .ptr b.mpTracker.get)
  | .GetLocalMapper => some (fun b => .ptr b.mpLocalMapper)
  | .GetLoopCloser => some (fun b => .ptr b.mpLoopCloser)
  | .GetPublisher => none

/-- Modelled from the spec: `GenericBuilder::GetMap` (body in System.cc), the
simple getter of `mpMap`; see `body`. -/
def GetMap (b : GenericBuilder) : Ptr := b.mpMap

/-- A virtual call of `g` on a `GenericBuilder` sub-object taken by itself. -/
def call (b : GenericBuilder) (g : Getter) : Option Handle :=
  match finalOverrider .GenericBuilder g with
  | some .GenericBuilder => (body g).map (fun f => f b)
  | _ => none

end GenericBuilder

end System

end ORB_SLAM3

/-- A `ROSPublisher`, represented by the arguments its constructor was given
(the constructor is defined in ROSPublisher.cpp). -/
structure ROSPublisher where
  map : Ptr
  frequency : Double
  nh : ros.NodeHandle
  deriving DecidableEq, Repr

/-- The class `ROSSystemBuilder`: the `GenericBuilder` base sub-object and the
member `mpPublisher`. -/
structure ROSSystemBuilder where
  toGenericBuilder : System.GenericBuilder
  mpPublisher : unique_ptr ROSPublisher
  deriving DecidableEq, Repr

namespace ROSSystemBuilder

/-- The getter `ROSSystemBuilder::GetPublisher`: `return mpPublisher.get();`. -/
def GetPublisher (b : ROSSystemBuilder) : Ptr :=
  b.mpPublisher.get

/-- The getter bodies `ROSSystemBuilder` itself defines. -/
def body : System.Getter → Option (ROSSystemBuilder → System.Handle)
  | .GetPublisher => some (fun b => .ptr b.GetPublisher)
  | _ => none

/-- A virtual call of `g` on a `ROSSystemBuilder`: run the body of the final
overrider. -/
def call (b : ROSSystemBuilder) (g : System.Getter) : Option System.Handle :=
  match System.finalOverrider .ROSSystemBuilder g with
  | some .ROSSystemBuilder => (body g).map (fun f => f b)
  | some .GenericBuilder => (System.GenericBuilder.body g).map (fun f => f b.toGenericBuilder)
  | _ => none

/-- The constructor of ROSSystemBuilder.cpp.  `baseCtor` is the base-class
constructor and `newAddr` the address `make_unique` allocates the publisher at.
The result is `none` when `mpTracker` is null at the two `mpTracker->` calls
(undefined behaviour). -/
def ctor (baseCtor : System.GenericBuilderCtor) (newAddr : Addr)
    (strVocFile strSettingsFile : String) (sensor : System.eSensor) (frequency : Double)
    (nh : ros.NodeHandle) (map_frame camera_frame : String) : Option ROSSystemBuilder :=
  let base := baseCtor strVocFile strSettingsFile sensor
  let mpPublisher : unique_ptr ROSPublisher := some ⟨newAddr, ⟨base.GetMap, frequency, nh⟩⟩
  match base.mpTracker with
  | none => none
  | some tracker =>
    let t1 := tracker.obj.SetFrameSubscriber mpPublisher.get
    let t2 := t1.SetMapPublisher mpPublisher.get
    some { toGenericBuilder := { base with mpTracker := some { tracker with obj := t2 } }
           mpPublisher := mpPublisher }

end ROSSystemBuilder

/-! ## The orchestrator's control plane

System.cc, which defines `System::MapChanged`, `System::Reset`, the tracking entry
points and `System::Shutdown`, is not among the sources; System.h only declares
them.  The definitions of this part follow the spec. -/

namespace ORB_SLAM3

namespace Pipeline

/-- Modelled from the spec: the tracker states of section 4.2 (the enumeration is
declared in Tracking.h, which is not among the sources). -/
inductive TrackingState where
  | NO_DATA
  | NOT_INITIALIZED
  | OK
  | RECENTLY_LOST
  | LOST
  | OK_AFTER_REINIT
  deriving DecidableEq, Repr

/-- What the numeric collaborators report for one sample: whether initialization,
pose estimation or relocalization (whichever the state calls for) succeeded,
whether the recency window has expired, and whether a reinitialization took
place. -/
structure Outcome where
  succeeded : Bool
  windowExpired : Bool
  reinitialized : Bool
  deriving DecidableEq, Repr

/-- Modelled from the spec: the transition rules of section 4.2 (the tracker body
is in Tracking.cc, which is not among the sources).  One sample advances the
machine once. -/
def advance : TrackingState → Outcome → TrackingState
  | .NO_DATA, _ => .NOT_INITIALIZED
  | .NOT_INITIALIZED, o => if o.succeeded then .OK else .NOT_INITIALIZED
  | .OK, o => if o.succeeded then .OK else .RECENTLY_LOST
  | .RECENTLY_LOST, o =>
    if o.succeeded then .OK else if o.windowExpired then .LOST else .RECENTLY_LOST
  | .LOST, o =>
    if o.succeeded then .OK else if o.reinitialized then .OK_AFTER_REINIT else .LOST
  | .OK_AFTER_REINIT, _ => .OK

/-- Modelled from the spec: the control state of the orchestrator.  System.h
declares the members `mSensor`, `mbReset`, `mbResetActiveMap`,
`currently_localizing_only_` and `mTrackingState`; the pending mode request, the
tracker state and the two counters of the map-change signal (section 4.1: "an
edge-triggered counter comparison") come from the spec, the code that holds them
being absent. -/
structure Orchestrator where
  mSensor : System.eSensor
  mbReset : Bool
  mbResetActiveMap : Bool
  modeRequest : Option Bool
  currently_localizing_only_ : Bool
  trackerState : TrackingState
  mTrackingState : TrackingState
  bigChangeIdx : Nat
  lastBigChangeSeen : Nat
  deriving DecidableEq, Repr

namespace Orchestrator

/-- Modelled from the spec: the orchestrator right after construction (the
constructor is in System.cc). -/
def init (sensor : System.eSensor) : Orchestrator :=
  { mSensor := sensor
    mbReset := false
    mbResetActiveMap := false
    modeRequest := none
    currently_localizing_only_ := false
    trackerState := .NO_DATA
    mTrackingState := .NO_DATA
    bigChangeIdx := 0
    lastBigChangeSeen := 0 }

/-- Modelled from the spec: `System::Reset` (body in System.cc) "sets a flag
consumed by Tracker before processing the next sample". -/
def Reset (s : Orchestrator) : Orchestrator :=
  { s with mbReset := true }

/-- Modelled from the spec: `System::ResetActiveMap` (body in System.cc), the
same with the flag for the active map. -/
def ResetActiveMap (s : Orchestrator) : Orchestrator :=
  { s with mbResetActiveMap := true }

/-- Modelled from the spec: `System::EnableLocalizationOnly` (body in System.cc);
the request is recorded and applied at the next safe point. -/
def EnableLocalizationOnly (localize_only : Bool) (s : Orchestrator) : Orchestrator :=
  { s with modeRequest := some localize_only }

/-- Modelled from the spec: the completion of a global correction (loop closure
or global bundle adjustment; the code is in LoopClosing.cc) "increments the map
changed counter (read by MapChanged)". -/
def globalCorrectionCompleted (s : Orchestrator) : Orchestrator :=
  { s with bigChangeIdx := s.bigChangeIdx + 1 }

/-- Modelled from the spec: `System::MapChanged` (body in System.cc), "an
edge-triggered counter comparison, not a persistent flag; each call consumes the
pending signal". -/
def MapChanged (s : Orchestrator) : Orchestrator × Bool :=
  if s.lastBigChangeSeen < s.bigChangeIdx then
    ({ s with lastBigChangeSeen := s.bigChangeIdx }, true)
  else
    (s, false)

/-- Modelled from the spec: the flags are "read-and-cleared by Tracker at the
start of each frame's processing"; a consumed reset leaves the tracker in the
not-yet-initialized state, a pending mode request is applied. -/
def consumeFlags (s : Orchestrator) : Orchestrator :=
  let s1 : Orchestrator :=
    match s.modeRequest with
    | some b => { s with currently_localizing_only_ := b, modeRequest := none }
    | none => s
  if s1.mbReset then
    { s1 with trackerState := .NOT_INITIALIZED, mbReset := false, mbResetActiveMap := false }
  else if s1.mbResetActiveMap then
    { s1 with trackerState := .NOT_INITIALIZED, mbResetActiveMap := false }
  else
    s1

/-- The result of a tracking call: the new state, the tracking state the call
started from (`none` when the call was rejected) and whether a pose came back. -/
structure Tracked where
  state : Orchestrator
  observed : Option TrackingState
  hasPose : Bool
  deriving DecidableEq, Repr

/-- Modelled from the spec: the tracking entry points `TrackMonocular`,
`TrackStereo` and `TrackRGBD` (bodies in System.cc).  A call of a modality
other than the configured one is rejected without any state change; otherwise
the flags are consumed, the tracker advances once and a pose comes back exactly
in state `OK`. -/
def ProcessSample (s : Orchestrator) (call : System.Call) (o : Outcome) : Tracked :=
  if System.compatible s.mSensor call then
    let s1 := consumeFlags s
    let next := advance s1.trackerState o
    { state := { s1 with trackerState := next, mTrackingState := next }
      observed := some s1.trackerState
      hasPose := decide (next = .OK) }
  else
    { state := s, observed := none, hasPose := false }

/-- What can happen to the orchestrator: a call of its public interface, or the
completion of a global correction on the loop worker's side. -/
inductive Op where
  | Reset
  | ResetActiveMap
  | EnableLocalizationOnly (localize_only : Bool)
  | MapChanged
  | globalCorrectionCompleted
  | ProcessSample (call : System.Call) (o : Outcome)
  deriving DecidableEq, Repr

/-- The effect of one operation, with what `MapChanged` returned if it was one. -/
def step (s : Orchestrator) : Op → Orchestrator × Option Bool
  | .Reset => (s.Reset, none)
  | .ResetActiveMap => (s.ResetActiveMap, none)
  | .EnableLocalizationOnly b => (s.EnableLocalizationOnly b, none)
  | .MapChanged => ((s.MapChanged).1, some (s.MapChanged).2)
  | .globalCorrectionCompleted => (s.globalCorrectionCompleted, none)
  | .ProcessSample call o => ((s.ProcessSample call o).state, none)

/-- The state after a sequence of operations. -/
def run (s : Orchestrator) : List Op → Orchestrator
  | [] => s
  | op :: rest => run (step s op).1 rest

/-- The values the `MapChanged` calls of a sequence of operations return, in
order. -/
def mapChangedReturns (s : Orchestrator) : List Op → List Bool
  | [] => []
  | op :: rest =>
    match (step s op).2 with
    | some b => b :: mapChangedReturns (step s op).1 rest
    | none => mapChangedReturns (step s op).1 rest

/-- Whether an operation is a tracking call the orchestrator with sensor
`sensor` accepts. -/
def Op.isAcceptedSample (sensor : System.eSensor) : Op → Bool
  | .ProcessSample call _ => System.compatible sensor call
  | _ => false

/-- Whether an operation is the completion of a global correction. -/
def Op.isCorrection : Op → Bool
  | .globalCorrectionCompleted => true
  | _ => false

end Orchestrator

/-- Modelled from the spec: a background worker (LocalMapper or LoopWorker, bodies
in LocalMapping.cc and LoopClosing.cc) as section 4.3 and 5 describe it: it has
a stop-request flag, an iteration in flight with some work left, a queue of
keyframes with the work each takes, and it has exited or not. -/
structure Worker where
  stopRequested : Bool
  inFlight : Nat
  queue : List Nat
  exited : Bool
  deriving DecidableEq, Repr

namespace Worker

/-- Modelled from the spec: one scheduling step of a worker.  Work in flight
goes on; between iterations the stop flag is checked ("in-flight optimization is
allowed to complete but no new iteration begins"); otherwise the next keyframe
is taken from the queue. -/
def tick (w : Worker) : Worker :=
  if w.exited then w
  else if 0 < w.inFlight then { w with inFlight := w.inFlight - 1 }
  else if w.stopRequested then { w with exited := true }
  else match w.queue with
    | [] => w
    | k :: rest => { w with inFlight := k, queue := rest }

/-- Modelled from the spec: the request to finish. -/
def requestFinish (w : Worker) : Worker :=
  { w with stopRequested := true }

end Worker

/-- The two worker threads the orchestrator owns. -/
structure Workers where
  localMapper : Worker
  loopWorker : Worker
  deriving DecidableEq, Repr

namespace Workers

/-- Both worker threads have exited. -/
def finished (s : Workers) : Bool :=
  s.localMapper.exited && s.loopWorker.exited

/-- One scheduling step of both threads. -/
def tick (s : Workers) : Workers :=
  { localMapper := s.localMapper.tick, loopWorker := s.loopWorker.tick }

/-- Modelled from the spec: the blocking part of `Shutdown`, "blocks until both
worker threads have joined".  `fuel` bounds the scheduling steps waited for;
`none` means the wait is still going on when the fuel is spent. -/
def waitJoined : Nat → Workers → Option Workers
  | 0, s => if s.finished then some s else none
  | fuel + 1, s => if s.finished then some s else waitJoined fuel s.tick

/-- Modelled from the spec: `System::Shutdown` (body in System.cc), which
"requests LocalMapper and LoopWorker to finish in-flight work and terminate,
then blocks until both worker threads have joined". -/
def Shutdown (fuel : Nat) (s : Workers) : Option Workers :=
  waitJoined fuel
    { localMapper := s.localMapper.requestFinish, loopWorker := s.loopWorker.requestFinish }

end Workers

end Pipeline

end ORB_SLAM3

/-! ## Auxiliary definitions

Measures and closed forms the proofs use, and the concrete objects the theorems
are instantiated at. -/

namespace ORB_SLAM3

namespace Pipeline

namespace Orchestrator

/-- One if a map change is waiting to be reported, zero otherwise. -/
def pending (s : Orchestrator) : Nat :=
  if s.lastBigChangeSeen < s.bigChangeIdx then 1 else 0

/-- A state reached in the middle of a run: stereo sensor, tracking lost, one map
change not yet reported. -/
def sampleLost : Orchestrator :=
  { mSensor := .STEREO
    mbReset := false
    mbResetActiveMap := false
    modeRequest := some true
    currently_localizing_only_ := false
    trackerState := .LOST
    mTrackingState := .LOST
    bigChangeIdx := 3
    lastBigChangeSeen := 2 }

/-- What happens between the reset and the next stereo frame in the concrete
instance: a `MapChanged` query, a monocular call (which a stereo system
rejects) and a mode switch. -/
def sampleBetween : List Op :=
  [.MapChanged,
   .ProcessSample (.TrackMonocular ⟨1, 1, [0]⟩ ⟨5⟩ [] "") ⟨true, false, false⟩,
   .EnableLocalizationOnly false]

end Orchestrator

namespace Worker

/-- The state a worker ends in once it has been asked to finish and has run to
its exit. -/
def stopped (w : Worker) : Worker :=
  if w.exited then { w with stopRequested := true }
  else { stopRequested := true, inFlight := 0, queue := w.queue, exited := true }

/-- The scheduling steps a worker that was asked to finish needs to exit. -/
def stepsLeft (w : Worker) : Nat :=
  if w.exited then 0 else w.inFlight + 1

end Worker

namespace Workers

/-- The state `Shutdown` ends in. -/
def terminal (s : Workers) : Workers :=
  { localMapper := s.localMapper.stopped, loopWorker := s.loopWorker.stopped }

end Workers

end Pipeline

end ORB_SLAM3

namespace ROSSystemBuilder

open ORB_SLAM3.System

/-- A base constructor used for the concrete instances of the theorems: map at address 30,
tracker at address 40 with no registration yet. -/
def sampleBase : GenericBuilderCtor := fun _ strSettingsFile sensor =>
  { mSensor := sensor
    mSettings := strSettingsFile
    mVocabulary := 10
    mpKeyFrameDatabase := some 20
    mpMap := some 30
    mpTracker := some ⟨40, ⟨[]⟩⟩
    mpLocalMapper := some 50
    mpLoopCloser := some 60 }

/-- The builder the constructor yields over `sampleBase` with the publisher
allocated at address 70. -/
def sampleBuilder : ROSSystemBuilder :=
  { toGenericBuilder :=
      { mSensor := .MONOCULAR
        mSettings := "mono.yaml"
        mVocabulary := 10
        mpKeyFrameDatabase := some 20
        mpMap := some 30
        mpTracker := some ⟨40, ⟨[.SetFrameSubscriber (some 70), .SetMapPublisher (some 70)]⟩⟩
        mpLocalMapper := some 50
        mpLoopCloser := some 60 }
    mpPublisher := some ⟨70, ⟨some 30, ⟨20⟩, ⟨"/orb"⟩⟩⟩ }

end ROSSystemBuilder

/-! # Theorems -/

/-! ## The verbosity filter -/

namespace ORB_SLAM3

namespace Verbose

theorem endl_length : endl.length = 1 := by decide

theorem cout_grows (a str : String) : a ++ str ++ endl ≠ a := by
  intro h
  have hl := congrArg String.length h
  simp only [String.length_append, endl_length] at hl
  omega

/-- C9: after `SetTh(t)`, `PrintMess(str, lev)` appends `str` and a line end to
`cout` when the numeric value of `lev` is at most that of `t` and leaves `cout`
as it was otherwise, so something is written exactly when `lev <= t`; a message
at `VERBOSITY_QUIET` is written under every threshold; the numeric values are
0, 1, 2, 3, 4 in the order QUIET, NORMAL, VERBOSE, VERY_VERBOSE, DEBUG. -/
theorem PrintMess_after_SetTh (str : String) (lev t : eLevel) (s : State) :
    (PrintMess str lev (SetTh t s)).cout
        = (if lev.val ≤ t.val then s.cout ++ str ++ "\n" else s.cout) ∧
      ((PrintMess str lev (SetTh t s)).cout ≠ s.cout ↔ lev.val ≤ t.val) ∧
      (PrintMess str .VERBOSITY_QUIET (SetTh t s)).cout = s.cout ++ str ++ "\n" ∧
      (PrintMess str lev (SetTh t s)).th = t ∧
      [eLevel.VERBOSITY_QUIET, .VERBOSITY_NORMAL, .VERBOSITY_VERBOSE,
        .VERBOSITY_VERY_VERBOSE, .VERBOSITY_DEBUG].map eLevel.val = [0, 1, 2, 3, 4] := by
  refine ⟨?_, ?_, ?_, ?_, rfl⟩
  · unfold PrintMess SetTh
    by_cases h : lev.val ≤ t.val <;> simp [h, endl]
  · unfold PrintMess SetTh
    by_cases h : lev.val ≤ t.val
    · simp only [h, if_true, iff_true]
      exact cout_grows s.cout str
    · simp [h]
  · unfold PrintMess SetTh
    simp [eLevel.val, endl]
  · unfold PrintMess SetTh
    by_cases h : lev.val ≤ t.val <;> simp [h]

end Verbose

end ORB_SLAM3

/-! ## The monocular node -/

namespace MonoNode

/-- What `spin` does to a node: it keeps the sensor, only adds single-image
tracking calls without inertial measurements, and ends without an exception
exactly when no conversion throws one of a class other than
`cv_bridge::Exception`. -/
theorem spin_calls (toCvShare : cv_bridge.Conversion) (toSec : ros.Time → Double)
    (msgs : List sensor_msgs.Image) :
    ∀ node0 : MonoNode,
      (spin toCvShare toSec node0 msgs).node.sensor = node0.sensor ∧
      (∀ c ∈ (spin toCvShare toSec node0 msgs).node.orb_slam_, c ∈ node0.orb_slam_ ∨
        ∃ im ts, c = System.Call.TrackMonocular im ts [] "") ∧
      ((spin toCvShare toSec node0 msgs).escaped = none ↔
        ∀ m ∈ msgs, ∀ what, toCvShare m ≠ .error (.other what)) := by
  induction msgs with
  | nil =>
    intro node0
    exact ⟨rfl, fun c hc => Or.inl hc, by simp [spin]⟩
  | cons msg rest ih =>
    intro node0
    cases hconv : toCvShare msg with
    | error thrown =>
      cases thrown with
      | cv_bridge_Exception e =>
        obtain ⟨hs, hcalls, hesc⟩ := ih
          { node0 with
            rosout := node0.rosout ++ [⟨.ERROR, "cv_bridge exception: " ++ e.what⟩] }
        simp only [spin, ImageCallback, hconv]
        refine ⟨hs, hcalls, ?_⟩
        rw [hesc]
        simp [hconv]
      | other what =>
        have hrun : spin toCvShare toSec node0 (msg :: rest)
            = { node := node0, escaped := some (.other what) } := by
          simp only [spin, ImageCallback, hconv]
        rw [hrun]
        refine ⟨rfl, fun c hc => Or.inl hc, ?_⟩
        constructor
        · intro h
          exact absurd h (by simp)
        · intro h
          exact absurd hconv (h msg (List.mem_cons_self _ _) what)
    | ok cv_in =>
      obtain ⟨hs, hcalls, hesc⟩ := ih
        { node0 with
          current_frame_time_ := msg.header.stamp
          orb_slam_ := node0.orb_slam_ ++
            [.TrackMonocular cv_in.image (toSec cv_in.header.stamp) [] ""] }
      simp only [spin, ImageCallback, hconv]
      refine ⟨hs, ?_, ?_⟩
      · intro c hc
        rcases hcalls c hc with h | h
        · rcases List.mem_append.mp h with h1 | h1
          · exact Or.inl h1
          · exact Or.inr ⟨cv_in.image, toSec cv_in.header.stamp, List.mem_singleton.mp h1⟩
        · exact Or.inr h
      · rw [hesc]
        simp [hconv]

/-- C1: when the conversion of a message succeeds, `ImageCallback` returns, adds
exactly one call to the system, `TrackMonocular(image, stamp.toSec())` with the
converted image, an empty inertial vector and an empty file name, sets
`current_frame_time_` to the stamp of the message and changes nothing else; the
time stamp passed is that of the converted image's header, which is the seconds
value of `current_frame_time_` whenever the conversion keeps the header (as
cv_bridge does). -/
theorem ImageCallback_converted (toCvShare : cv_bridge.Conversion)
    (toSec : ros.Time → Double) (self : MonoNode) (msg : sensor_msgs.Image)
    (cv_in : cv_bridge.CvImage) (hconv : toCvShare msg = .ok cv_in) :
    ∃ node, ImageCallback toCvShare toSec self msg = .ok node ∧
      node.orb_slam_ = self.orb_slam_ ++
        [.TrackMonocular cv_in.image (toSec cv_in.header.stamp) [] ""] ∧
      node.orb_slam_.length = self.orb_slam_.length + 1 ∧
      node.current_frame_time_ = msg.header.stamp ∧
      node.sensor = self.sensor ∧ node.rosout = self.rosout ∧
      node.image_subscriber = self.image_subscriber ∧
      node.camera_info_topic_ = self.camera_info_topic_ ∧
      (cv_in.header = msg.header →
        node.orb_slam_ = self.orb_slam_ ++
          [.TrackMonocular cv_in.image (toSec node.current_frame_time_) [] ""]) := by
  refine ⟨{ self with
      current_frame_time_ := msg.header.stamp
      orb_slam_ := self.orb_slam_ ++
        [.TrackMonocular cv_in.image (toSec cv_in.header.stamp) [] ""] },
    by simp only [ImageCallback, hconv], rfl, by simp, rfl, rfl, rfl, rfl, rfl, ?_⟩
  intro hh
  simp [hh]

/-- C1 at a concrete message: a 1x1 image stamped 7 s 500 ns, a conversion that
keeps the header, seconds taken as the `sec` field. -/
theorem ImageCallback_converted_witness :
    ∃ node, ImageCallback
        (fun m => .ok ⟨m.header, m.encoding, ⟨m.height, m.width, m.data⟩⟩)
        (fun t => ⟨t.sec⟩)
        (ctor .MONOCULAR "/camera/image_raw" none [])
        ⟨⟨3, ⟨7, 500⟩, "cam"⟩, 1, 1, "mono8", 0, 1, [42]⟩ = .ok node ∧
      node.orb_slam_ = [.TrackMonocular ⟨1, 1, [42]⟩ ⟨7⟩ [] ""] ∧
      node.current_frame_time_ = ⟨7, 500⟩ := by
  obtain ⟨node, h1, h2, _, h4, _, _, _, _, _⟩ := ImageCallback_converted
    (fun m => .ok ⟨m.header, m.encoding, ⟨m.height, m.width, m.data⟩⟩)
    (fun t => ⟨t.sec⟩)
    (ctor .MONOCULAR "/camera/image_raw" none [])
    ⟨⟨3, ⟨7, 500⟩, "cam"⟩, 1, 1, "mono8", 0, 1, [42]⟩
    ⟨⟨3, ⟨7, 500⟩, "cam"⟩, "mono8", ⟨1, 1, [42]⟩⟩ rfl
  exact ⟨node, h1, h2, h4⟩

/-- C8, amended: when the conversion of a message throws a
`cv_bridge::Exception`, `ImageCallback` returns normally, the system has
received no further call, `current_frame_time_` is what it was, and the only
effect is one `ROS_ERROR` line. -/
theorem ImageCallback_conversion_failed (toCvShare : cv_bridge.Conversion)
    (toSec : ros.Time → Double) (self : MonoNode) (msg : sensor_msgs.Image)
    (e : cv_bridge.Exception) (hconv : toCvShare msg = .error (.cv_bridge_Exception e)) :
    ∃ node, ImageCallback toCvShare toSec self msg = .ok node ∧
      node.orb_slam_ = self.orb_slam_ ∧
      node.current_frame_time_ = self.current_frame_time_ ∧
      node = { self with
        rosout := self.rosout ++ [⟨.ERROR, "cv_bridge exception: " ++ e.what⟩] } := by
  exact ⟨{ self with
      rosout := self.rosout ++ [⟨.ERROR, "cv_bridge exception: " ++ e.what⟩] },
    by simp only [ImageCallback, hconv], rfl, rfl, rfl⟩

/-- C8, amended, at a concrete message: a conversion that rejects every encoding
but "mono8" with a `cv_bridge::Exception`, a node that has already tracked one
frame stamped 7 s. -/
theorem ImageCallback_conversion_failed_witness :
    ∃ node, ImageCallback
        (fun m => if m.encoding = "mono8"
          then .ok ⟨m.header, m.encoding, ⟨m.height, m.width, m.data⟩⟩
          else .error (.cv_bridge_Exception ⟨"Unrecognized image encoding"⟩))
        (fun t => ⟨t.sec⟩)
        ⟨.MONOCULAR, ⟨7, 0⟩, [.TrackMonocular ⟨1, 1, [42]⟩ ⟨7⟩ [] ""],
          ("/camera/image_raw", 1), "", []⟩
        ⟨⟨4, ⟨8, 0⟩, "cam"⟩, 1, 1, "jpeg", 0, 1, [9]⟩ = .ok node ∧
      node.orb_slam_ = [.TrackMonocular ⟨1, 1, [42]⟩ ⟨7⟩ [] ""] ∧
      node.current_frame_time_ = ⟨7, 0⟩ := by
  obtain ⟨node, h1, h2, h3, _⟩ := ImageCallback_conversion_failed
    (fun m => if m.encoding = "mono8"
      then .ok ⟨m.header, m.encoding, ⟨m.height, m.width, m.data⟩⟩
      else .error (.cv_bridge_Exception ⟨"Unrecognized image encoding"⟩))
    (fun t => ⟨t.sec⟩)
    ⟨.MONOCULAR, ⟨7, 0⟩, [.TrackMonocular ⟨1, 1, [42]⟩ ⟨7⟩ [] ""],
      ("/camera/image_raw", 1), "", []⟩
    ⟨⟨4, ⟨8, 0⟩, "cam"⟩, 1, 1, "jpeg", 0, 1, [9]⟩
    ⟨"Unrecognized image encoding"⟩ (by simp)
  exact ⟨node, h1, h2, h3⟩

/-- C8 as stated fails: a conversion that throws an exception of another class
(here a `std::runtime_error` for the encoding "8U") is a conversion that
throws, and the callback does not return normally on it: the exception leaves
the callback. -/
theorem ImageCallback_other_exception_escapes :
    ImageCallback
        (fun m => if m.encoding = "8U"
          then .error (.other "Unknown encoding 8U")
          else .ok ⟨m.header, m.encoding, ⟨m.height, m.width, m.data⟩⟩)
        (fun t => ⟨t.sec⟩)
        ⟨.MONOCULAR, ⟨7, 0⟩, [], ("/camera/image_raw", 1), "", []⟩
        ⟨⟨4, ⟨8, 0⟩, "cam"⟩, 1, 1, "8U", 0, 1, [9]⟩
      = .error (.other "Unknown encoding 8U") ∧
    ¬ ∀ (toCvShare : cv_bridge.Conversion) (toSec : ros.Time → Double) (self : MonoNode)
        (msg : sensor_msgs.Image) (thrown : cv_bridge.Thrown),
        toCvShare msg = .error thrown →
        ∃ node, ImageCallback toCvShare toSec self msg = .ok node ∧
          node.orb_slam_ = self.orb_slam_ ∧
          node.current_frame_time_ = self.current_frame_time_ := by
  refine ⟨by simp [ImageCallback], ?_⟩
  intro h
  obtain ⟨node, hret, _⟩ := h
    (fun m => if m.encoding = "8U"
      then .error (.other "Unknown encoding 8U")
      else .ok ⟨m.header, m.encoding, ⟨m.height, m.width, m.data⟩⟩)
    (fun t => ⟨t.sec⟩)
    ⟨.MONOCULAR, ⟨7, 0⟩, [], ("/camera/image_raw", 1), "", []⟩
    ⟨⟨4, ⟨8, 0⟩, "cam"⟩, 1, 1, "8U", 0, 1, [9]⟩
    (.other "Unknown encoding 8U") (by simp)
  simp [ImageCallback] at hret

/-- C6: whatever messages arrive and however their conversion goes (also when
an exception leaves a callback and ends the program), the node built by `main`
is configured for `MONOCULAR`, and every tracking call it has made is a
`TrackMonocular` call, which is a call of the modality the configured sensor
accepts; `main` gets through all messages exactly when no conversion throws an
exception of a class other than `cv_bridge::Exception`. -/
theorem main_only_monocular (argc : Nat) (DEFAULT_IMAGE_TOPIC : String)
    (imageTopicParam : Option String) (toCvShare : cv_bridge.Conversion)
    (toSec : ros.Time → Double) (msgs : List sensor_msgs.Image) :
    (main argc DEFAULT_IMAGE_TOPIC imageTopicParam toCvShare toSec msgs).node.sensor
        = .MONOCULAR ∧
      (∀ c ∈ (main argc DEFAULT_IMAGE_TOPIC imageTopicParam toCvShare toSec msgs).node.orb_slam_,
        (∃ im ts, c = System.Call.TrackMonocular im ts [] "") ∧
        System.compatible
          (main argc DEFAULT_IMAGE_TOPIC imageTopicParam toCvShare toSec msgs).node.sensor c
          = true) ∧
      ((main argc DEFAULT_IMAGE_TOPIC imageTopicParam toCvShare toSec msgs).escaped = none ↔
        ∀ m ∈ msgs, ∀ what, toCvShare m ≠ .error (.other what)) := by
  obtain ⟨hs, hcalls, hesc⟩ := spin_calls toCvShare toSec msgs
    (ctor .MONOCULAR DEFAULT_IMAGE_TOPIC imageTopicParam
      (if argc > 1 then [⟨.WARN, "Arguments supplied via command line are neglected."⟩]
        else []))
  have hs1 : (main argc DEFAULT_IMAGE_TOPIC imageTopicParam toCvShare toSec msgs).node.sensor
      = .MONOCULAR := hs
  refine ⟨hs1, ?_, hesc⟩
  intro c hc
  rcases hcalls c hc with h | ⟨im, ts, h⟩
  · simp [ctor] at h
  · refine ⟨⟨im, ts, h⟩, ?_⟩
    rw [hs1, h]
    rfl

end MonoNode

/-! ## The builders -/

namespace ROSSystemBuilder

open ORB_SLAM3.System

/-- The constructor's result spelled out: it exists exactly when the base
constructor left a tracker, and is then the base sub-object with the two
registrations appended to the tracker, together with the new publisher. -/
theorem ctor_eq (baseCtor : GenericBuilderCtor) (newAddr : Addr)
    (strVocFile strSettingsFile : String) (sensor : eSensor) (frequency : Double)
    (nh : ros.NodeHandle) (map_frame camera_frame : String) :
    ctor baseCtor newAddr strVocFile strSettingsFile sensor frequency nh map_frame camera_frame
      = ((baseCtor strVocFile strSettingsFile sensor).mpTracker).map (fun tracker =>
          { toGenericBuilder :=
              { baseCtor strVocFile strSettingsFile sensor with
                mpTracker := some
                  { tracker with
                    obj := ⟨tracker.obj.received ++
                      [.SetFrameSubscriber (some newAddr), .SetMapPublisher (some newAddr)]⟩ } }
            mpPublisher := some
              ⟨newAddr, ⟨(baseCtor strVocFile strSettingsFile sensor).mpMap, frequency, nh⟩⟩ }) := by
  unfold ctor
  cases h : (baseCtor strVocFile strSettingsFile sensor).mpTracker with
  | none => simp [h]
  | some tracker =>
    simp [h, Tracking.SetFrameSubscriber, Tracking.SetMapPublisher, unique_ptr.get,
      GenericBuilder.GetMap, List.append_assoc]

/-- C2: `IBuilder` declares exactly eight getters, all pure virtual;
`GenericBuilder` overrides the first seven and has no body for `GetPublisher`;
`ROSSystemBuilder` overrides `GetPublisher` only; so on a constructed
`ROSSystemBuilder` each of the seven other getters runs the `GenericBuilder`
body and returns what it returns on the base sub-object as the `GenericBuilder`
constructor built it from the same vocabulary file, settings file and sensor. -/
theorem seven_getters_inherited (baseCtor : GenericBuilderCtor) (newAddr : Addr)
    (strVocFile strSettingsFile : String) (sensor : eSensor) (frequency : Double)
    (nh : ros.NodeHandle) (map_frame camera_frame : String) (b : ROSSystemBuilder)
    (hb : ctor baseCtor newAddr strVocFile strSettingsFile sensor frequency nh
      map_frame camera_frame = some b) :
    (classDecl .IBuilder).pureVirtual = [.GetSensorType, .GetVocabulary,
        .GetKeyFrameDatabase, .GetMap, .GetTracker, .GetLocalMapper, .GetLoopCloser,
        .GetPublisher] ∧
      (classDecl .IBuilder).pureVirtual.length = 8 ∧
      (classDecl .IBuilder).overrides = [] ∧
      (classDecl .GenericBuilder).overrides = (classDecl .IBuilder).pureVirtual.take 7 ∧
      (classDecl .GenericBuilder).pureVirtual = [] ∧
      finalOverrider .GenericBuilder .GetPublisher = none ∧
      GenericBuilder.body .GetPublisher = none ∧
      (classDecl .ROSSystemBuilder).overrides = [.GetPublisher] ∧
      (classDecl .ROSSystemBuilder).pureVirtual = [] ∧
      finalOverrider .ROSSystemBuilder .GetPublisher = some .ROSSystemBuilder ∧
      ∀ g : Getter, g ≠ .GetPublisher →
        finalOverrider .ROSSystemBuilder g = some .GenericBuilder ∧
        (b.call g).isSome = true ∧
        b.call g = (baseCtor strVocFile strSettingsFile sensor).call g := by
  refine ⟨rfl, rfl, rfl, rfl, rfl, rfl, rfl, rfl, rfl, rfl, ?_⟩
  intro g hg
  rw [ctor_eq] at hb
  cases ht : (baseCtor strVocFile strSettingsFile sensor).mpTracker with
  | none => simp [ht] at hb
  | some tracker =>
    simp only [ht, Option.map_some', Option.some.injEq] at hb
    subst hb
    cases g <;>
      first
      | exact absurd rfl hg
      | simp [call, GenericBuilder.call, finalOverrider, lookup, classDecl,
          GenericBuilder.body, unique_ptr.get, ht]

theorem sampleBuilder_built (map_frame camera_frame : String) :
    ctor sampleBase 70 "ORBvoc.txt" "mono.yaml" .MONOCULAR ⟨20⟩ ⟨"/orb"⟩ map_frame camera_frame
      = some sampleBuilder := rfl

/-- C2 at a concrete construction: the tracker getter of the built object returns
the address 40 the base constructor put the tracker at. -/
theorem seven_getters_inherited_witness :
    ctor sampleBase 70 "ORBvoc.txt" "mono.yaml" .MONOCULAR ⟨20⟩ ⟨"/orb"⟩ "map" "camera"
        = some sampleBuilder ∧
      sampleBuilder.call .GetTracker
        = (sampleBase "ORBvoc.txt" "mono.yaml" .MONOCULAR).call .GetTracker ∧
      (sampleBase "ORBvoc.txt" "mono.yaml" .MONOCULAR).call .GetTracker
        = some (.ptr (some 40)) :=
  ⟨sampleBuilder_built "map" "camera",
    ((seven_getters_inherited sampleBase 70 "ORBvoc.txt" "mono.yaml" .MONOCULAR ⟨20⟩ ⟨"/orb"⟩
      "map" "camera" sampleBuilder (sampleBuilder_built "map" "camera")).2.2.2.2.2.2.2.2.2.2
      .GetTracker (by decide)).2.2,
    rfl⟩

/-- C7: on a constructed `ROSSystemBuilder`, `GetPublisher` returns a non-null
pointer, the address of the publisher `mpPublisher` owns; the tracker of the
builder (the one `GetTracker` returns, at the address the base constructor gave
it) has received, after whatever it had received before, `SetFrameSubscriber`
and `SetMapPublisher` with that very pointer, which is therefore its frame
subscriber and its map publisher; and the publisher was constructed with the
pointer `GetMap` returns. -/
theorem publisher_registered (baseCtor : GenericBuilderCtor) (newAddr : Addr)
    (strVocFile strSettingsFile : String) (sensor : eSensor) (frequency : Double)
    (nh : ros.NodeHandle) (map_frame camera_frame : String) (b : ROSSystemBuilder)
    (hb : ctor baseCtor newAddr strVocFile strSettingsFile sensor frequency nh
      map_frame camera_frame = some b) :
    b.GetPublisher ≠ none ∧
      b.call .GetPublisher = some (.ptr b.GetPublisher) ∧
      ∃ pub tracker tracker0,
        b.mpPublisher = some pub ∧ b.GetPublisher = some pub.addr ∧
        b.toGenericBuilder.mpTracker = some tracker ∧
        b.call .GetTracker = some (.ptr (some tracker.addr)) ∧
        (baseCtor strVocFile strSettingsFile sensor).mpTracker = some tracker0 ∧
        tracker.addr = tracker0.addr ∧
        tracker.obj.received = tracker0.obj.received ++
          [.SetFrameSubscriber b.GetPublisher, .SetMapPublisher b.GetPublisher] ∧
        tracker.obj.frameSubscriber = b.GetPublisher ∧
        tracker.obj.mapPublisher = b.GetPublisher ∧
        b.call .GetMap = some (.ptr pub.obj.map) ∧
        pub.obj.frequency = frequency ∧ pub.obj.nh = nh := by
  rw [ctor_eq] at hb
  cases ht : (baseCtor strVocFile strSettingsFile sensor).mpTracker with
  | none => simp [ht] at hb
  | some tracker0 =>
    simp only [ht, Option.map_some', Option.some.injEq] at hb
    subst hb
    refine ⟨by simp [GetPublisher, unique_ptr.get], by
      simp [call, finalOverrider, lookup, classDecl, body], ?_⟩
    refine ⟨_, _, tracker0, rfl, rfl, rfl, ?_, rfl, rfl, rfl, ?_, ?_, ?_, rfl, rfl⟩
    · simp [call, finalOverrider, lookup, classDecl, GenericBuilder.body, unique_ptr.get]
    · simp [Tracking.frameSubscriber, List.foldl_append, GetPublisher, unique_ptr.get]
    · simp [Tracking.mapPublisher, List.foldl_append, GetPublisher, unique_ptr.get]
    · simp [call, finalOverrider, lookup, classDecl, GenericBuilder.body]

/-- C7 at a concrete construction: the publisher sits at address 70, and 70 is
what the tracker at address 40 was given twice. -/
theorem publisher_registered_witness :
    ctor sampleBase 70 "ORBvoc.txt" "mono.yaml" .MONOCULAR ⟨20⟩ ⟨"/orb"⟩ "world" "cam"
        = some sampleBuilder ∧
      sampleBuilder.GetPublisher ≠ none ∧
      sampleBuilder.GetPublisher = some 70 :=
  ⟨sampleBuilder_built "world" "cam",
    (publisher_registered sampleBase 70 "ORBvoc.txt" "mono.yaml" .MONOCULAR ⟨20⟩ ⟨"/orb"⟩
      "world" "cam" sampleBuilder (sampleBuilder_built "world" "cam")).1,
    rfl⟩

/-- C10: the constructor does not use `map_frame` and `camera_frame`: two
constructions that agree on all other arguments give the same result, whatever
the frame names; the publisher is made from the map pointer, the frequency and
the node handle, and the tracker receives the two registrations of the
publisher's address. -/
theorem frames_ignored (baseCtor : GenericBuilderCtor) (newAddr : Addr)
    (strVocFile strSettingsFile : String) (sensor : eSensor) (frequency : Double)
    (nh : ros.NodeHandle) (map_frame camera_frame map_frame2 camera_frame2 : String) :
    ctor baseCtor newAddr strVocFile strSettingsFile sensor frequency nh map_frame camera_frame
        = ctor baseCtor newAddr strVocFile strSettingsFile sensor frequency nh
            map_frame2 camera_frame2 ∧
      (ctor baseCtor newAddr strVocFile strSettingsFile sensor frequency nh
          map_frame camera_frame).map (fun b => b.mpPublisher)
        = ((baseCtor strVocFile strSettingsFile sensor).mpTracker).map (fun _ =>
            some ⟨newAddr, ⟨(baseCtor strVocFile strSettingsFile sensor).mpMap, frequency, nh⟩⟩) ∧
      (ctor baseCtor newAddr strVocFile strSettingsFile sensor frequency nh
          map_frame camera_frame).map (fun b => b.toGenericBuilder.mpTracker)
        = ((baseCtor strVocFile strSettingsFile sensor).mpTracker).map (fun tracker =>
            some ⟨tracker.addr, ⟨tracker.obj.received ++
              [.SetFrameSubscriber (some newAddr), .SetMapPublisher (some newAddr)]⟩⟩) := by
  refine ⟨rfl, ?_, ?_⟩
  · rw [ctor_eq]
    cases (baseCtor strVocFile strSettingsFile sensor).mpTracker <;> simp
  · rw [ctor_eq]
    cases (baseCtor strVocFile strSettingsFile sensor).mpTracker <;> simp

end ROSSystemBuilder

/-! ## The orchestrator's control plane -/

namespace ORB_SLAM3

namespace Pipeline

namespace Orchestrator

theorem consumeFlags_counters (s : Orchestrator) :
    (consumeFlags s).bigChangeIdx = s.bigChangeIdx ∧
      (consumeFlags s).lastBigChangeSeen = s.lastBigChangeSeen := by
  unfold consumeFlags
  cases s.modeRequest <;> dsimp only <;> split_ifs <;> exact ⟨rfl, rfl⟩

theorem ProcessSample_counters (s : Orchestrator) (call : System.Call) (o : Outcome) :
    (ProcessSample s call o).state.bigChangeIdx = s.bigChangeIdx ∧
      (ProcessSample s call o).state.lastBigChangeSeen = s.lastBigChangeSeen := by
  unfold ProcessSample
  split_ifs
  · exact consumeFlags_counters s
  · exact ⟨rfl, rfl⟩

theorem mapChangedReturns_append (ops1 ops2 : List Op) :
    ∀ s : Orchestrator, mapChangedReturns s (ops1 ++ ops2)
      = mapChangedReturns s ops1 ++ mapChangedReturns (run s ops1) ops2 := by
  induction ops1 with
  | nil => intro s; rfl
  | cons op rest ih =>
    intro s
    simp only [List.cons_append, mapChangedReturns, run]
    cases (step s op).2 <;> simp [ih]

theorem run_append (ops1 ops2 : List Op) :
    ∀ s : Orchestrator, run s (ops1 ++ ops2) = run (run s ops1) ops2 := by
  induction ops1 with
  | nil => intro s; rfl
  | cons op rest ih =>
    intro s
    show run (step s op).1 (rest ++ ops2) = run (run (step s op).1 rest) ops2
    exact ih _

/-- The `true` returns of a sequence of operations are paid for by the
corrections of the sequence, plus the one that may be waiting at the start. -/
theorem true_returns_bounded (ops : List Op) :
    ∀ s : Orchestrator, (mapChangedReturns s ops).count true
      ≤ pending s + ops.countP Op.isCorrection := by
  induction ops with
  | nil => intro s; simp [mapChangedReturns]
  | cons op rest ih =>
    intro s
    cases op with
    | Reset =>
      have h := ih s.Reset
      simpa [mapChangedReturns, step, Op.isCorrection, pending, Reset] using h
    | ResetActiveMap =>
      have h := ih s.ResetActiveMap
      simpa [mapChangedReturns, step, Op.isCorrection, pending, ResetActiveMap] using h
    | EnableLocalizationOnly b =>
      have h := ih (s.EnableLocalizationOnly b)
      simpa [mapChangedReturns, step, Op.isCorrection, pending, EnableLocalizationOnly] using h
    | MapChanged =>
      by_cases hlt : s.lastBigChangeSeen < s.bigChangeIdx
      · have h := ih { s with lastBigChangeSeen := s.bigChangeIdx }
        simp only [pending, lt_self_iff_false, if_false, Nat.zero_add] at h
        simp only [mapChangedReturns, step, MapChanged, hlt, if_true, List.count_cons_self,
          pending, List.countP_cons, Op.isCorrection]
        simp only [Bool.false_eq_true, if_false, Nat.add_zero]
        omega
      · have h := ih s
        simp only [pending, hlt, if_false, Nat.zero_add] at h
        simp only [mapChangedReturns, step, MapChanged, hlt, if_false, pending,
          List.countP_cons, Op.isCorrection]
        simp only [Bool.false_eq_true, if_false, Nat.add_zero, Nat.zero_add]
        rw [List.count_cons_of_ne (by decide)]
        exact h
    | globalCorrectionCompleted =>
      have h := ih s.globalCorrectionCompleted
      have hp : pending s.globalCorrectionCompleted ≤ 1 := by
        unfold pending; split_ifs <;> omega
      simp only [mapChangedReturns, step, List.countP_cons, Op.isCorrection, if_true]
      omega
    | ProcessSample call o =>
      have h := ih (s.ProcessSample call o).state
      have hc := ProcessSample_counters s call o
      have hp : pending (s.ProcessSample call o).state = pending s := by
        unfold pending; rw [hc.1, hc.2]
      rw [hp] at h
      simpa [mapChangedReturns, step, Op.isCorrection] using h

/-- No map change is waiting once `MapChanged` has been called, and none
appears while no correction completes. -/
theorem quiet_preserved (ops : List Op) :
    ∀ s : Orchestrator, pending s = 0 →
      pending (run s (ops.filter (fun op => !op.isCorrection))) = 0 := by
  induction ops with
  | nil => intro s hs; exact hs
  | cons op rest ih =>
    intro s hs
    cases op with
    | Reset => exact ih s.Reset hs
    | ResetActiveMap => exact ih s.ResetActiveMap hs
    | EnableLocalizationOnly b => exact ih (s.EnableLocalizationOnly b) hs
    | MapChanged =>
      have : (step s .MapChanged).1 = s := by
        have hlt : ¬ s.lastBigChangeSeen < s.bigChangeIdx := by
          unfold pending at hs; split_ifs at hs with h; exact h
        simp [step, MapChanged, hlt]
      simp only [Op.isCorrection, Bool.not_false, List.filter_cons_of_pos, run, this]
      exact ih s hs
    | globalCorrectionCompleted =>
      simp only [Op.isCorrection, Bool.not_true, Bool.false_eq_true, not_false_eq_true,
        List.filter_cons_of_neg]
      exact ih s hs
    | ProcessSample call o =>
      have hc := ProcessSample_counters s call o
      have hp : pending (s.ProcessSample call o).state = 0 := by
        unfold pending at hs ⊢; rw [hc.1, hc.2]; exact hs
      exact ih (s.ProcessSample call o).state hp

theorem pending_after_MapChanged (s : Orchestrator) : pending (s.MapChanged).1 = 0 := by
  unfold MapChanged pending
  by_cases h : s.lastBigChangeSeen < s.bigChangeIdx <;> simp [h]

/-- C3: in every sequence of operations on a freshly constructed orchestrator
(tracking calls, resets, mode switches, `MapChanged` calls and completions of
global corrections in any order), `MapChanged` returns `true` no more often
than corrections have completed, and the same holds for every stretch of
operations that follows a `MapChanged` call; a `MapChanged` call that follows
another one with no correction completed in between returns `false`. -/
theorem MapChanged_edge_triggered (sensor : System.eSensor) (before between ops : List Op) :
    (mapChangedReturns (init sensor) ops).count true ≤ ops.countP Op.isCorrection ∧
      (mapChangedReturns (run (init sensor) (before ++ [.MapChanged])) ops).count true
        ≤ ops.countP Op.isCorrection ∧
      (mapChangedReturns (init sensor)
          (before ++ [.MapChanged] ++ between.filter (fun op => !op.isCorrection)
            ++ [.MapChanged])).getLast? = some false ∧
      (MapChanged (run (init sensor)
          (before ++ [.MapChanged] ++ between.filter (fun op => !op.isCorrection)))).2
        = false := by
  have hq : pending (run (init sensor) (before ++ [.MapChanged])) = 0 := by
    rw [run_append]
    exact pending_after_MapChanged _
  have hlast : (MapChanged (run (init sensor)
      (before ++ [.MapChanged] ++ between.filter (fun op => !op.isCorrection)))).2 = false := by
    have h := quiet_preserved between _ hq
    rw [← run_append] at h
    have hlt : ¬ (run (init sensor) (before ++ [.MapChanged] ++
        between.filter (fun op => !op.isCorrection))).lastBigChangeSeen
        < (run (init sensor) (before ++ [.MapChanged] ++
        between.filter (fun op => !op.isCorrection))).bigChangeIdx := by
      unfold pending at h; split_ifs at h with h1; exact h1
    unfold MapChanged
    rw [if_neg hlt]
  refine ⟨?_, ?_, ?_, hlast⟩
  · have h := true_returns_bounded ops (init sensor)
    simpa [pending, init] using h
  · have h := true_returns_bounded ops (run (init sensor) (before ++ [.MapChanged]))
    rw [hq] at h
    simpa using h
  · rw [mapChangedReturns_append]
    simp only [mapChangedReturns, step, hlast]
    simp

/-- Operations that are not accepted tracking calls leave the sensor alone and
a requested reset pending. -/
theorem reset_stays_pending (mid : List Op) :
    ∀ s : Orchestrator, s.mbReset = true →
      (∀ op ∈ mid, op.isAcceptedSample s.mSensor = false) →
      (run s mid).mbReset = true ∧ (run s mid).mSensor = s.mSensor := by
  induction mid with
  | nil => intro s hs _; exact ⟨hs, rfl⟩
  | cons op rest ih =>
    intro s hs hmid
    have hop := hmid op (List.mem_cons_self _ _)
    have hrest : ∀ op1 ∈ rest, op1.isAcceptedSample s.mSensor = false :=
      fun op1 h1 => hmid op1 (List.mem_cons_of_mem _ h1)
    have key : (step s op).1.mbReset = true ∧ (step s op).1.mSensor = s.mSensor := by
      cases op with
      | Reset => exact ⟨rfl, rfl⟩
      | ResetActiveMap => exact ⟨hs, rfl⟩
      | EnableLocalizationOnly b => exact ⟨hs, rfl⟩
      | MapChanged =>
        simp only [step, MapChanged]
        split_ifs <;> exact ⟨hs, rfl⟩
      | globalCorrectionCompleted => exact ⟨hs, rfl⟩
      | ProcessSample call o =>
        simp only [Op.isAcceptedSample] at hop
        simp [step, ProcessSample, hop, hs]
    have h := ih (step s op).1 key.1 (by rw [key.2]; exact hrest)
    exact ⟨h.1, h.2.trans key.2⟩

/-- C4: whatever state the orchestrator is in (whatever samples it has
processed, whatever the tracker state), after `Reset()` the next tracking
call the orchestrator accepts starts from the tracking state
`NOT_INITIALIZED`, also when calls other than accepted tracking calls come in
between; the reset flag is consumed by that call. -/
theorem Reset_then_not_initialized (s : Orchestrator) (mid : List Op)
    (call : System.Call) (o : Outcome)
    (hmid : ∀ op ∈ mid, op.isAcceptedSample s.mSensor = false)
    (hcall : System.compatible s.mSensor call = true) :
    (ProcessSample (run s.Reset mid) call o).observed = some .NOT_INITIALIZED ∧
      (ProcessSample s.Reset call o).observed = some .NOT_INITIALIZED ∧
      (ProcessSample (run s.Reset mid) call o).state.mbReset = false ∧
      (ProcessSample (run s.Reset mid) call o).state.trackerState
        = advance .NOT_INITIALIZED o := by
  have hgen : ∀ s1 : Orchestrator, s1.mbReset = true → s1.mSensor = s.mSensor →
      (ProcessSample s1 call o).observed = some .NOT_INITIALIZED ∧
      (ProcessSample s1 call o).state.mbReset = false ∧
      (ProcessSample s1 call o).state.trackerState = advance .NOT_INITIALIZED o := by
    intro s1 h1 h2
    have hc : System.compatible s1.mSensor call = true := by rw [h2]; exact hcall
    have hcf : (consumeFlags s1).trackerState = .NOT_INITIALIZED ∧
        (consumeFlags s1).mbReset = false := by
      unfold consumeFlags
      cases s1.modeRequest <;> simp [h1]
    simp [ProcessSample, hc, hcf.1, hcf.2]
  have hr := reset_stays_pending mid s.Reset rfl hmid
  have h1 := hgen (run s.Reset mid) hr.1 hr.2
  have h2 := hgen s.Reset rfl rfl
  exact ⟨h1.1, h2.1, h1.2.1, h1.2.2⟩

/-- C4 at a concrete state: a stereo system that has lost tracking is reset; a
`MapChanged` query, a rejected monocular call and a mode switch later, the next
stereo frame starts from `NOT_INITIALIZED`. -/
theorem Reset_then_not_initialized_witness :
    (∀ op ∈ sampleBetween, op.isAcceptedSample sampleLost.mSensor = false) ∧
      System.compatible sampleLost.mSensor
        (.TrackStereo ⟨1, 1, [7]⟩ ⟨1, 1, [8]⟩ ⟨6⟩ [] "") = true ∧
      (ProcessSample (run sampleLost.Reset sampleBetween)
        (.TrackStereo ⟨1, 1, [7]⟩ ⟨1, 1, [8]⟩ ⟨6⟩ [] "") ⟨false, false, false⟩).observed
        = some .NOT_INITIALIZED :=
  ⟨by decide, by decide,
    (Reset_then_not_initialized sampleLost sampleBetween
      (.TrackStereo ⟨1, 1, [7]⟩ ⟨1, 1, [8]⟩ ⟨6⟩ [] "") ⟨false, false, false⟩
      (by decide) (by decide)).1⟩

end Orchestrator

namespace Worker

theorem tick_stopping (w : Worker) (hw : w.stopRequested = true) :
    w.tick.stopRequested = true ∧ w.tick.stopped = w.stopped ∧
      w.tick.stepsLeft = w.stepsLeft - 1 := by
  obtain ⟨sr, n, q, ex⟩ := w
  simp only at hw
  subst hw
  cases ex
  · cases n with
    | zero => simp [tick, stopped, stepsLeft]
    | succ k => simp [tick, stopped, stepsLeft]
  · simp [tick, stopped, stepsLeft]

theorem stopped_of_exited (w : Worker) (hw : w.stopRequested = true) (he : w.exited = true) :
    w.stopped = w := by
  obtain ⟨sr, n, q, ex⟩ := w
  simp only at hw he
  subst hw he
  rfl

end Worker

namespace Workers

theorem waitJoined_stopping (fuel : Nat) :
    ∀ s : Workers, s.localMapper.stopRequested = true → s.loopWorker.stopRequested = true →
      s.localMapper.stepsLeft ≤ fuel → s.loopWorker.stepsLeft ≤ fuel →
      waitJoined fuel s = some (terminal s) := by
  induction fuel with
  | zero =>
    intro s h1 h2 h3 h4
    have e1 : s.localMapper.exited = true := by
      unfold Worker.stepsLeft at h3; split_ifs at h3 with h; exact h; omega
    have e2 : s.loopWorker.exited = true := by
      unfold Worker.stepsLeft at h4; split_ifs at h4 with h; exact h; omega
    simp [waitJoined, finished, e1, e2, terminal, Worker.stopped_of_exited _ h1 e1,
      Worker.stopped_of_exited _ h2 e2]
  | succ n ih =>
    intro s h1 h2 h3 h4
    by_cases hf : s.finished = true
    · have e : s.localMapper.exited = true ∧ s.loopWorker.exited = true := by
        simpa [finished] using hf
      simp [waitJoined, hf, terminal, Worker.stopped_of_exited _ h1 e.1,
        Worker.stopped_of_exited _ h2 e.2]
    · have t1 := Worker.tick_stopping s.localMapper h1
      have t2 := Worker.tick_stopping s.loopWorker h2
      have h := ih s.tick t1.1 t2.1
        (by show s.localMapper.tick.stepsLeft ≤ n; rw [t1.2.2]; omega)
        (by show s.loopWorker.tick.stepsLeft ≤ n; rw [t2.2.2]; omega)
      simp only [waitJoined, hf, if_false, Bool.false_eq_true]
      rw [h]
      simp [terminal, tick, t1.2.1, t2.2.1]

theorem Shutdown_enough_fuel (s : Workers) (fuel : Nat)
    (h1 : s.localMapper.stepsLeft ≤ fuel) (h2 : s.loopWorker.stepsLeft ≤ fuel) :
    Shutdown fuel s = some (terminal s) := by
  have h := waitJoined_stopping fuel
    { localMapper := s.localMapper.requestFinish, loopWorker := s.loopWorker.requestFinish }
    rfl rfl (by simpa [Worker.requestFinish, Worker.stepsLeft] using h1)
    (by simpa [Worker.requestFinish, Worker.stepsLeft] using h2)
  rw [Shutdown, h]
  simp [terminal, Worker.stopped, Worker.requestFinish]

theorem terminal_stepsLeft (s : Workers) :
    (terminal s).localMapper.stepsLeft = 0 ∧ (terminal s).loopWorker.stepsLeft = 0 := by
  constructor
  · simp only [terminal, Worker.stopped, Worker.stepsLeft]
    by_cases h : s.localMapper.exited = true <;> simp [h]
  · simp only [terminal, Worker.stopped, Worker.stepsLeft]
    by_cases h : s.loopWorker.exited = true <;> simp [h]

theorem terminal_idem (s : Workers) : terminal (terminal s) = terminal s := by
  simp only [terminal, Worker.stopped]
  by_cases h1 : s.localMapper.exited = true <;> by_cases h2 : s.loopWorker.exited = true <;>
    simp [h1, h2]

/-- C5: from every state of the two worker threads, `Shutdown` returns once the
in-flight iterations have run out (any wait of at least that many scheduling
steps suffices) and leaves both workers exited; a second `Shutdown` on the
state so reached returns at once, without waiting for any scheduling step, and
leaves that state as it is. -/
theorem Shutdown_idempotent (s : Workers) :
    ∃ fuel s1, (∀ more, Shutdown (fuel + more) s = some s1) ∧
      s1.finished = true ∧
      s1.localMapper.stopRequested = true ∧ s1.loopWorker.stopRequested = true ∧
      ∀ fuel2, Shutdown fuel2 s1 = some s1 := by
  refine ⟨max s.localMapper.stepsLeft s.loopWorker.stepsLeft, terminal s, ?_, ?_, ?_, ?_, ?_⟩
  · intro more
    exact Shutdown_enough_fuel s _ (by omega) (by omega)
  · simp only [finished, terminal, Worker.stopped]
    by_cases h1 : s.localMapper.exited = true <;> by_cases h2 : s.loopWorker.exited = true <;>
      simp [h1, h2]
  · simp only [terminal, Worker.stopped]
    by_cases h1 : s.localMapper.exited = true <;> simp [h1]
  · simp only [terminal, Worker.stopped]
    by_cases h2 : s.loopWorker.exited = true <;> simp [h2]
  · intro fuel2
    have h := Shutdown_enough_fuel (terminal s) fuel2
      (by rw [(terminal_stepsLeft s).1]; omega) (by rw [(terminal_stepsLeft s).2]; omega)
    rw [h, terminal_idem]

end Workers

end Pipeline

end ORB_SLAM3
